import Mathlib

/-!
Verification of the iXmanager EV-charger integration
(custom_components/ixmanager): a shallow embedding of the API client,
the polling coordinator and the point adapters (switch, number, sensor),
together with theorems settling the specification claims.

Python floats are modelled as rationals (exact for the integral currents
and sub-second delays that occur here); Python dicts as association
lists with insertion-order update semantics; exceptions as an inductive
type carrying the class hierarchy of exceptions.py.
-/

namespace IXManager

/-- A primitive JSON property value as it appears in API responses:
boolean, number, string, or null (Python None). -/
inductive Prim where
  | pBool : Bool → Prim
  | pNum : ℚ → Prim
  | pStr : String → Prim
  | pNull : Prim
deriving DecidableEq, Repr

/-- A snapshot entry: either a bare primitive value, or the
enveloped form, a dict of shape with a single value field
(the code tests isinstance dict together with membership of
the value key). -/
inductive Entry where
  | bare : Prim → Entry
  | env : Prim → Entry
deriving DecidableEq, Repr

/-- The Python test `x is None` on a stored entry: only a bare null
is the None object (an envelope dict is never None). -/
def Entry.isPyNone : Entry → Bool
  | .bare .pNull => true
  | _ => false

/-- Unwrapping step shared by sensor.native_value, switch.is_on and
number.native_value: if the entry is a dict containing the value key,
take that field, else take the entry itself. -/
def Entry.unwrap : Entry → Prim
  | .bare p => p
  | .env p => p

/-- The property snapshot: a Python dict from property key to value,
modelled as an insertion-ordered association list. -/
abbrev Snapshot := List (String × Entry)

/-- Dict lookup `d.get(k)` / membership `k in d`. -/
def Snapshot.get : Snapshot → String → Option Entry
  | [], _ => none
  | (k1, v) :: rest, k => if k1 = k then some v else Snapshot.get rest k

/-- Dict assignment `d[k] = v`: replace the existing binding in place,
otherwise append at the end (Python dict insertion order). -/
def Snapshot.set : Snapshot → String → Entry → Snapshot
  | [], k, v => [(k, v)]
  | (k1, v1) :: rest, k, v =>
      if k1 = k then (k1, v) :: rest else (k1, v1) :: Snapshot.set rest k v

/-- The exception classes of exceptions.py (plus the catch-all for
exceptions from outside the integration). IXManagerConnectionError,
IXManagerAuthenticationError and IXManagerTimeoutError are subclasses
of IXManagerError. -/
inductive Exc where
  | iXManagerError : String → Exc
  | iXManagerConnectionError : String → Exc
  | iXManagerAuthenticationError : String → Exc
  | iXManagerTimeoutError : String → Exc
  | otherError : Exc
deriving DecidableEq, Repr

/-- `isinstance(e, IXManagerError)`: true for the base class and for
each of its three subclasses defined in exceptions.py. -/
def Exc.isIXManagerError : Exc → Bool
  | .iXManagerError _ => true
  | .iXManagerConnectionError _ => true
  | .iXManagerAuthenticationError _ => true
  | .iXManagerTimeoutError _ => true
  | .otherError => false

/-- `isinstance(e, IXManagerConnectionError)`. -/
def Exc.isIXManagerConnectionError : Exc → Bool
  | .iXManagerConnectionError _ => true
  | _ => false

/-- `isinstance(e, IXManagerAuthenticationError)`. -/
def Exc.isIXManagerAuthenticationError : Exc → Bool
  | .iXManagerAuthenticationError _ => true
  | _ => false

/-- Outcome of the HTTP GET performed inside async_get_properties:
a response with a status code and decoded JSON body, a timeout
(asyncio.TimeoutError), or a transport failure (aiohttp.ClientError). -/
inductive HttpGetOutcome where
  | status : ℕ → Snapshot → HttpGetOutcome
  | timeout : HttpGetOutcome
  | clientFailure : String → HttpGetOutcome
deriving DecidableEq, Repr

/-- Outcome of the HTTP PATCH performed inside async_set_property. -/
inductive HttpPatchOutcome where
  | status : ℕ → HttpPatchOutcome
  | timeout : HttpPatchOutcome
  | clientFailure : String → HttpPatchOutcome
deriving DecidableEq, Repr

/-- IXManagerApiClient.async_get_properties (api_client.py): status 200
returns the decoded body; 401, 404 and every other non-200 status raise
IXManagerError with the respective message; timeout and transport
failures raise IXManagerConnectionError. -/
def async_get_properties : HttpGetOutcome → Except Exc Snapshot
  | .status code body =>
      if code = 200 then .ok body
      else if code = 401 then .error (.iXManagerError "Invalid API key")
      else if code = 404 then .error (.iXManagerError "Controller not found")
      else .error (.iXManagerError ("API returned status " ++ toString code))
  | .timeout => .error (.iXManagerConnectionError "Timeout connecting to iXmanager API")
  | .clientFailure m =>
      .error (.iXManagerConnectionError ("Error connecting to iXmanager API: " ++ m))

/-- IXManagerApiClient.async_set_property (api_client.py): status 200 or
204 returns True; 401, 404 and other statuses raise IXManagerError;
timeout and transport failures raise IXManagerConnectionError. -/
def async_set_property : HttpPatchOutcome → Except Exc Bool
  | .status code =>
      if code = 200 ∨ code = 204 then .ok true
      else if code = 401 then .error (.iXManagerError "Invalid API key")
      else if code = 404 then .error (.iXManagerError "Controller or property not found")
      else .error (.iXManagerError ("API returned status " ++ toString code))
  | .timeout => .error (.iXManagerConnectionError "Timeout connecting to iXmanager API")
  | .clientFailure m =>
      .error (.iXManagerConnectionError ("Error connecting to iXmanager API: " ++ m))

/-- IXManagerApiClient.async_validate_connection: fetches the single key
chargingEnable and re-raises whatever async_get_properties raised. -/
def async_validate_connection (resp : HttpGetOutcome) : Except Exc Bool :=
  (async_get_properties resp).map (fun _ => true)

/-- The except chain of IXManagerConfigFlow.async_step_user
(config_flow.py): IXManagerConnectionError maps the base error to
cannot_connect, IXManagerAuthenticationError to invalid_auth, and any
other exception to unknown. -/
def config_flow_error_base (e : Exc) : String :=
  if e.isIXManagerConnectionError then "cannot_connect"
  else if e.isIXManagerAuthenticationError then "invalid_auth"
  else "unknown"

/-- Coordinator state (coordinator.py): the cached snapshot
(coordinator.data, None before the first refresh) and the
last_update_success flag maintained by the host scheduler layer. -/
structure CoordState where
  data : Option Snapshot
  last_update_success : Bool
deriving DecidableEq, Repr

/-- Lookup of a key through the optional snapshot. -/
def CoordState.lookup (st : CoordState) (k : String) : Option Entry :=
  match st.data with
  | some snap => Snapshot.get snap k
  | none => none

/-- IXManagerDataUpdateCoordinator.async_update_single_property
(coordinator.py): fetches one key; on success, if the coordinator holds
a truthy (non-empty) snapshot and the fetched dict contains the key,
the snapshot entry for that key is assigned, and the fetched dict is
returned; on any exception the warning is logged and None is returned.
The fetch argument is the outcome of api_client.async_get_properties. -/
def async_update_single_property (st : CoordState) (property_key : String)
    (fetch : Except Exc Snapshot) : CoordState × Option Snapshot :=
  match fetch with
  | .ok d =>
      match st.data, Snapshot.get d property_key with
      | some snap, some v =>
          if snap.isEmpty then (st, some d)
          else ({ st with data := some (Snapshot.set snap property_key v) }, some d)
      | _, _ => (st, some d)
  | .error _ => (st, none)

/-- The availability property implemented identically in sensor.py,
switch.py and number.py: the last poll succeeded, the snapshot is not
None, the key is present in it, and the stored value is not None. -/
def entity_available (st : CoordState) (key : String) : Bool :=
  st.last_update_success &&
    match st.data with
    | some snap =>
        match Snapshot.get snap key with
        | some e => !e.isPyNone
        | none => false
    | none => false

/-- The final coercion of IXManagerSwitchBase.is_on on the unwrapped
value: a bool is returned directly, otherwise `str(value).lower() == "true"`
(the string form of a number is never the text true, and str(None) is
the text none, so both coerce to false). -/
def py_truthy_text : Prim → Bool
  | .pBool b => b
  | .pStr s => s.toLower == "true"
  | .pNum _ => false
  | .pNull => false

/-- IXManagerSwitchBase.is_on (switch.py): None when unavailable or the
stored value is None, otherwise the unwrapped value coerced to bool. -/
def switch_is_on (st : CoordState) (key : String) : Option Bool :=
  if !entity_available st key then none
  else
    match st.lookup key with
    | some e => if e.isPyNone then none else some (py_truthy_text e.unwrap)
    | none => none

/-- The Python call `float(value)`: exact for numbers, a bool is an int
(True is 1.0), a numeric text parses (modelled for integer literals),
and None raises TypeError (caught by the caller, yielding None). -/
def py_float : Prim → Option ℚ
  | .pNum q => some q
  | .pBool b => some (if b then 1 else 0)
  | .pStr s => (s.trim.toInt?).map (fun n => (n : ℚ))
  | .pNull => none

/-- IXManagerNumberBase.native_value (number.py): None when unavailable,
otherwise the unwrapped value through float coercion, with coercion
failures logged and reported as None. -/
def number_native_value (st : CoordState) (key : String) : Option ℚ :=
  if !entity_available st key then none
  else
    match st.lookup key with
    | some e => if e.isPyNone then none else py_float e.unwrap
    | none => none

/-- IXManagerSensorBase.native_value (sensor.py): the raw unwrapped
Python value; the unavailable and stored-None paths both return the
None object, which is the null primitive. -/
def sensor_native_value (st : CoordState) (key : String) : Prim :=
  if !entity_available st key then .pNull
  else
    match st.lookup key with
    | some e => if e.isPyNone then .pNull else e.unwrap
    | none => .pNull

/-- Which coordinator refresh a scheduled task will perform: the full
async_request_refresh, or the targeted async_update_single_property. -/
inductive RefreshKind where
  | full : RefreshKind
  | singleKey : String → RefreshKind
deriving DecidableEq, Repr

/-- Observable effects of a set-point write, in program order:
in-place snapshot mutation, the async_write_ha_state notification, the
PATCH network call, the creation of the delayed-refresh task (with its
sleep duration in seconds and the refresh it performs), and the
immediate async_request_refresh of the error branch. -/
inductive WriteEvent where
  | snapshotMutated : String → Entry → WriteEvent
  | wroteHaState : WriteEvent
  | patchSent : String → Prim → WriteEvent
  | scheduledDelayedRefresh : ℚ → RefreshKind → WriteEvent
  | requestedImmediateRefresh : WriteEvent
deriving DecidableEq, Repr

/-- True exactly for a scheduled delayed refresh of a single key. -/
def WriteEvent.isSingleKeyRefresh : WriteEvent → Bool
  | .scheduledDelayedRefresh _ (.singleKey _) => true
  | _ => false

/-- Per-adapter state: the shared coordinator plus the
_api_call_in_progress in-flight flag. -/
structure AdapterState where
  coord : CoordState
  api_call_in_progress : Bool
deriving DecidableEq, Repr

/-- Result of one write call: the post state, the ordered effect trace,
and an exception that escaped the except clause, if any. -/
structure WriteResult where
  state : AdapterState
  events : List WriteEvent
  uncaught : Option Exc
deriving DecidableEq, Repr

/-- number.py: _async_delayed_refresh sleeps 0.5 seconds and then calls
coordinator.async_request_refresh (a full refresh). -/
def number_delayed_refresh : WriteEvent := .scheduledDelayedRefresh (1/2) .full

/-- switch.py: _async_delayed_refresh sleeps 0.1 seconds and then calls
coordinator.async_request_refresh (a full refresh). -/
def switch_delayed_refresh : WriteEvent := .scheduledDelayedRefresh (1/10) .full

/-- The optimistic-mutation step shared by both write paths:
`if self.coordinator.data:` (falsy for None and for an empty dict) then
assign the entry and call async_write_ha_state. -/
def optimistic_mutation (c : CoordState) (key : String) (v : Entry) :
    CoordState × List WriteEvent :=
  match c.data with
  | some snap =>
      if snap.isEmpty then (c, [])
      else ({ c with data := some (Snapshot.set snap key v) },
            [.snapshotMutated key v, .wroteHaState])
  | none => (c, [])

/-- The shared tail of both write paths: the PATCH call, then on success
the delayed-refresh task, on a caught IXManagerError the immediate
corrective refresh, and the finally clause clearing the in-flight flag
in every branch (an exception outside IXManagerError would escape after
finally runs, which cannot happen for PATCH errors since api_client only
raises IXManagerError subclasses). -/
def write_tail (c : CoordState) (evs : List WriteEvent) (key : String) (v : Prim)
    (delayed : WriteEvent) (patchResult : Except Exc Bool) : WriteResult :=
  let evs := evs ++ [.patchSent key v]
  match patchResult with
  | .ok _ =>
      ⟨⟨c, false⟩, evs ++ [delayed], none⟩
  | .error e =>
      if e.isIXManagerError then
        ⟨⟨c, false⟩, evs ++ [.requestedImmediateRefresh], none⟩
      else
        ⟨⟨c, false⟩, evs, some e⟩

/-- IXManagerSwitchBase._async_set_state (switch.py): drop the request
while a call is in progress; otherwise set the flag, optimistically
mutate and notify, PATCH the boolean, schedule the 0.1 s delayed
refresh on success or request an immediate refresh on IXManagerError,
and clear the flag. The patchResult argument is the outcome of
api_client.async_set_property. -/
def switch_async_set_state (st : AdapterState) (property_key : String)
    (state : Bool) (patchResult : Except Exc Bool) : WriteResult :=
  if st.api_call_in_progress then ⟨st, [], none⟩
  else
    let (c, evs) := optimistic_mutation st.coord property_key (.bare (.pBool state))
    write_tail c evs property_key (.pBool state) switch_delayed_refresh patchResult

/-- CABLE_TYPES of const.py, restricted to the max_current field. -/
def CABLE_TYPES_max_current : String → Option ℕ
  | "16A" => some 16
  | "32A" => some 32
  | _ => none

/-- `CABLE_TYPES.get(cable_type, CABLE_TYPES[DEFAULT_CABLE_TYPE])["max_current"]`
with DEFAULT_CABLE_TYPE being the 16A cable. -/
def resolve_max_current (cable_type : String) : ℕ :=
  (CABLE_TYPES_max_current cable_type).getD 16

/-- The clamp step of async_set_native_value: `if value > max_current:`
log the warning and reduce the value to the cable maximum. -/
def number_clamp (cable_type : String) (value : ℚ) : ℚ :=
  let max_current : ℚ := (resolve_max_current cable_type : ℚ)
  if value > max_current then max_current else value

/-- IXManagerNumberBase.async_set_native_value (number.py): drop the
request while a call is in progress; otherwise clamp the value to the
cable maximum (values above the cap are reduced, never rejected), then
run the same optimistic-write protocol as the switch with a 0.5 s
delayed refresh. -/
def number_async_set_native_value (st : AdapterState) (property_key : String)
    (cable_type : String) (value : ℚ) (patchResult : Except Exc Bool) : WriteResult :=
  if st.api_call_in_progress then ⟨st, [], none⟩
  else
    let value := number_clamp cable_type value
    let (c, evs) := optimistic_mutation st.coord property_key (.bare (.pNum value))
    write_tail c evs property_key (.pNum value) number_delayed_refresh patchResult

/-! Helper lemmas about dict assignment and the shared write tail. -/

/-- Assigning a key and reading it back yields the assigned value. -/
theorem Snapshot.get_set_self (s : Snapshot) (k : String) (v : Entry) :
    Snapshot.get (Snapshot.set s k v) k = some v := by
  induction s with
  | nil => simp [Snapshot.set, Snapshot.get]
  | cons hd tl ih =>
      obtain ⟨k1, v1⟩ := hd
      by_cases h : k1 = k
      · simp [Snapshot.set, Snapshot.get, h]
      · simp [Snapshot.set, Snapshot.get, h, ih]

/-- Assigning a key leaves every other key unchanged. -/
theorem Snapshot.get_set_ne (s : Snapshot) (k k2 : String) (v : Entry)
    (h : k2 ≠ k) :
    Snapshot.get (Snapshot.set s k v) k2 = Snapshot.get s k2 := by
  have h2 : ¬(k = k2) := fun hk => h hk.symm
  induction s with
  | nil => simp [Snapshot.set, Snapshot.get, h2]
  | cons hd tl ih =>
      obtain ⟨k1, v1⟩ := hd
      by_cases hk : k1 = k
      · subst hk
        simp [Snapshot.set, Snapshot.get, h2]
      · simp [Snapshot.set, Snapshot.get, hk, ih]

/-- A caught IXManagerError in the write tail takes the corrective
branch: immediate refresh requested, flag cleared, nothing escapes. -/
theorem write_tail_caught (c : CoordState) (evs : List WriteEvent) (key : String)
    (v : Prim) (d : WriteEvent) (e : Exc) (he : e.isIXManagerError = true) :
    write_tail c evs key v d (.error e) =
      ⟨⟨c, false⟩, (evs ++ [.patchSent key v]) ++ [.requestedImmediateRefresh], none⟩ := by
  simp [write_tail, he]

/-- A switch write that is not dropped is the optimistic mutation
followed by the shared write tail. -/
theorem switch_not_in_flight (st : AdapterState) (key : String) (b : Bool)
    (p : Except Exc Bool) (hflag : st.api_call_in_progress = false) :
    switch_async_set_state st key b p =
      write_tail (optimistic_mutation st.coord key (.bare (.pBool b))).1
        (optimistic_mutation st.coord key (.bare (.pBool b))).2
        key (.pBool b) switch_delayed_refresh p := by
  simp [switch_async_set_state, hflag]

/-- A number write that is not dropped is the clamp, the optimistic
mutation and the shared write tail. -/
theorem number_not_in_flight (st : AdapterState) (key cable : String) (q : ℚ)
    (p : Except Exc Bool) (hflag : st.api_call_in_progress = false) :
    number_async_set_native_value st key cable q p =
      write_tail (optimistic_mutation st.coord key (.bare (.pNum (number_clamp cable q)))).1
        (optimistic_mutation st.coord key (.bare (.pNum (number_clamp cable q)))).2
        key (.pNum (number_clamp cable q)) number_delayed_refresh p := by
  simp [number_async_set_native_value, hflag]

/-! Claim theorems. -/

/-- Claim C1 (evaluating the code at the failing input): an HTTP 401
response to the properties GET raises the base IXManagerError class,
the same class raised on 404, not IXManagerAuthenticationError;
async_validate_connection re-raises it; the setup flow except chain
therefore falls through to unknown rather than invalid_auth. -/
theorem C1_http401_base_class_unknown :
    async_get_properties (.status 401 []) = .error (.iXManagerError "Invalid API key")
    ∧ async_validate_connection (.status 401 []) = .error (.iXManagerError "Invalid API key")
    ∧ Exc.isIXManagerAuthenticationError (.iXManagerError "Invalid API key") = false
    ∧ config_flow_error_base (.iXManagerError "Invalid API key") = "unknown"
    ∧ async_get_properties (.status 404 []) = .error (.iXManagerError "Controller not found") :=
  ⟨rfl, rfl, rfl, rfl, rfl⟩

/-- Claim C2: a write arriving while the in-flight flag is set returns
immediately as a no-op, for the switch and the number adapter alike:
the state is unchanged and the effect trace is empty, so no network
call is issued. -/
theorem C2_in_flight_write_dropped (st : AdapterState) (key1 key2 cable : String)
    (b : Bool) (q : ℚ) (p1 p2 : Except Exc Bool)
    (h : st.api_call_in_progress = true) :
    switch_async_set_state st key1 b p1 = ⟨st, [], none⟩
    ∧ number_async_set_native_value st key2 cable q p2 = ⟨st, [], none⟩ := by
  constructor
  · simp [switch_async_set_state, h]
  · simp [number_async_set_native_value, h]

/-- Witness for C2 at a concrete in-flight adapter state. -/
theorem C2_in_flight_write_dropped_witness :
    switch_async_set_state ⟨⟨some [], true⟩, true⟩ "chargingEnable" true (.ok true)
        = ⟨⟨⟨some [], true⟩, true⟩, [], none⟩
    ∧ number_async_set_native_value ⟨⟨some [], true⟩, true⟩ "maximumCurrent" "16A" 10 (.ok true)
        = ⟨⟨⟨some [], true⟩, true⟩, [], none⟩ :=
  C2_in_flight_write_dropped ⟨⟨some [], true⟩, true⟩ "chargingEnable" "maximumCurrent"
    "16A" true 10 (.ok true) (.ok true) rfl

/-- Claim C7: when the underlying fetch of the single-property refresh
raises any exception, the call returns None, the coordinator state
(cached snapshot and last_update_success) is left unchanged, and
nothing propagates. -/
theorem C7_single_refresh_error_swallowed (st : CoordState) (key : String) (e : Exc) :
    async_update_single_property st key (.error e) = (st, none) := rfl

/-- Claim C3: an accepted boolean write (no call in flight) against a
present, non-empty snapshot mutates the snapshot entry for the key and
notifies observers before the PATCH is issued (the first three effects,
in order, are the mutation, the notification, the network call), and
the read-back through is_on on the resulting coordinator state already
yields the new value, before any refresh runs. -/
theorem C3_optimistic_before_patch (st : AdapterState) (key : String) (b : Bool)
    (snap : Snapshot) (p : Except Exc Bool)
    (hflag : st.api_call_in_progress = false)
    (hdata : st.coord.data = some snap)
    (hne : snap.isEmpty = false)
    (hlus : st.coord.last_update_success = true) :
    (switch_async_set_state st key b p).events.take 3 =
      [.snapshotMutated key (.bare (.pBool b)), .wroteHaState, .patchSent key (.pBool b)]
    ∧ switch_is_on (switch_async_set_state st key b p).state.coord key = some b := by
  have hmut : optimistic_mutation st.coord key (.bare (.pBool b)) =
      ({ st.coord with data := some (Snapshot.set snap key (.bare (.pBool b))) },
       [.snapshotMutated key (.bare (.pBool b)), .wroteHaState]) := by
    simp [optimistic_mutation, hdata, hne]
  have hread : switch_is_on
      { st.coord with data := some (Snapshot.set snap key (.bare (.pBool b))) } key = some b := by
    cases b <;>
      simp [switch_is_on, entity_available, CoordState.lookup, hlus,
        Snapshot.get_set_self, Entry.isPyNone, Entry.unwrap, py_truthy_text]
  rcases p with e | v
  · by_cases he : e.isIXManagerError = true
    · constructor
      · simp [switch_async_set_state, hflag, hmut, write_tail, he]
      · simpa [switch_async_set_state, hflag, hmut, write_tail, he] using hread
    · constructor
      · simp [switch_async_set_state, hflag, hmut, write_tail, he]
      · simpa [switch_async_set_state, hflag, hmut, write_tail, he] using hread
  · constructor
    · simp [switch_async_set_state, hflag, hmut, write_tail]
    · simpa [switch_async_set_state, hflag, hmut, write_tail] using hread

/-- Witness for C3: turning the charging switch on against a snapshot
that currently stores false. -/
theorem C3_optimistic_before_patch_witness :
    (switch_async_set_state ⟨⟨some [("chargingEnable", .bare (.pBool false))], true⟩, false⟩
        "chargingEnable" true (.ok true)).events.take 3 =
      [.snapshotMutated "chargingEnable" (.bare (.pBool true)), .wroteHaState,
       .patchSent "chargingEnable" (.pBool true)]
    ∧ switch_is_on (switch_async_set_state
        ⟨⟨some [("chargingEnable", .bare (.pBool false))], true⟩, false⟩
        "chargingEnable" true (.ok true)).state.coord "chargingEnable" = some true :=
  C3_optimistic_before_patch ⟨⟨some [("chargingEnable", .bare (.pBool false))], true⟩, false⟩
    "chargingEnable" true [("chargingEnable", .bare (.pBool false))] (.ok true)
    rfl rfl rfl rfl

/-- Claim C8: a connection or timeout failure of the PATCH is an
instance of the generic IXManagerError class the write path catches,
so it takes literally the same corrective branch as an API error: the
immediate coordinator refresh appears in the trace, the in-flight flag
ends cleared, and nothing escapes — for the switch and the number
adapter alike. -/
theorem C8_connection_error_same_branch (st : AdapterState) (key1 key2 cable : String)
    (b : Bool) (q : ℚ) (m1 m2 : String)
    (hflag : st.api_call_in_progress = false) :
    Exc.isIXManagerError (.iXManagerConnectionError m1) = true
    ∧ switch_async_set_state st key1 b (.error (.iXManagerConnectionError m1)) =
        switch_async_set_state st key1 b (.error (.iXManagerError m2))
    ∧ WriteEvent.requestedImmediateRefresh ∈
        (switch_async_set_state st key1 b (.error (.iXManagerConnectionError m1))).events
    ∧ (switch_async_set_state st key1 b (.error (.iXManagerConnectionError m1))).state.api_call_in_progress = false
    ∧ (switch_async_set_state st key1 b (.error (.iXManagerConnectionError m1))).uncaught = none
    ∧ number_async_set_native_value st key2 cable q (.error (.iXManagerConnectionError m1)) =
        number_async_set_native_value st key2 cable q (.error (.iXManagerError m2))
    ∧ WriteEvent.requestedImmediateRefresh ∈
        (number_async_set_native_value st key2 cable q (.error (.iXManagerConnectionError m1))).events
    ∧ (number_async_set_native_value st key2 cable q (.error (.iXManagerConnectionError m1))).state.api_call_in_progress = false
    ∧ (number_async_set_native_value st key2 cable q (.error (.iXManagerConnectionError m1))).uncaught = none := by
  rw [switch_not_in_flight st key1 b (.error (.iXManagerConnectionError m1)) hflag,
    switch_not_in_flight st key1 b (.error (.iXManagerError m2)) hflag,
    number_not_in_flight st key2 cable q (.error (.iXManagerConnectionError m1)) hflag,
    number_not_in_flight st key2 cable q (.error (.iXManagerError m2)) hflag,
    write_tail_caught _ _ _ _ _ (.iXManagerConnectionError m1) rfl,
    write_tail_caught _ _ _ _ _ (.iXManagerError m2) rfl,
    write_tail_caught _ _ _ _ _ (.iXManagerConnectionError m1) rfl,
    write_tail_caught _ _ _ _ _ (.iXManagerError m2) rfl]
  refine ⟨rfl, rfl, ?_, rfl, rfl, rfl, ?_, rfl, rfl⟩ <;> simp

/-- Witness for C8 at a concrete adapter state and error messages. -/
theorem C8_connection_error_same_branch_witness :
    WriteEvent.requestedImmediateRefresh ∈
      (switch_async_set_state ⟨⟨some [("chargingEnable", .bare (.pBool false))], true⟩, false⟩
        "chargingEnable" true (.error (.iXManagerConnectionError "x"))).events
    ∧ WriteEvent.requestedImmediateRefresh ∈
      (number_async_set_native_value ⟨⟨some [("chargingEnable", .bare (.pBool false))], true⟩, false⟩
        "maximumCurrent" "16A" 20 (.error (.iXManagerConnectionError "x"))).events :=
  ⟨(C8_connection_error_same_branch ⟨⟨some [("chargingEnable", .bare (.pBool false))], true⟩, false⟩
      "chargingEnable" "maximumCurrent" "16A" true 20 "x" "y" rfl).2.2.1,
   (C8_connection_error_same_branch ⟨⟨some [("chargingEnable", .bare (.pBool false))], true⟩, false⟩
      "chargingEnable" "maximumCurrent" "16A" true 20 "x" "y" rfl).2.2.2.2.2.2.1⟩

/-- Claim C9: an accepted write issued while the coordinator snapshot
is None or an empty dict skips the optimistic mutation and the UI
notification entirely, yet the PATCH is still sent and, the PATCH
returning 200, the delayed reconciliation refresh is still scheduled. -/
theorem C9_no_snapshot_write_still_patches (st : AdapterState) (key1 key2 cable : String)
    (b : Bool) (q : ℚ)
    (hflag : st.api_call_in_progress = false)
    (hdata : st.coord.data = none ∨ st.coord.data = some []) :
    switch_async_set_state st key1 b (async_set_property (.status 200)) =
      ⟨⟨st.coord, false⟩, [.patchSent key1 (.pBool b), switch_delayed_refresh], none⟩
    ∧ number_async_set_native_value st key2 cable q (async_set_property (.status 200)) =
      ⟨⟨st.coord, false⟩, [.patchSent key2 (.pNum (number_clamp cable q)), number_delayed_refresh], none⟩ := by
  have hmut : ∀ (k : String) (v : Entry), optimistic_mutation st.coord k v = (st.coord, []) := by
    intro k v
    rcases hdata with h | h <;> simp [optimistic_mutation, h]
  constructor
  · rw [switch_not_in_flight _ _ _ _ hflag, hmut]
    rfl
  · rw [number_not_in_flight _ _ _ _ _ hflag, hmut]
    rfl

/-- Witness for C9 with a coordinator that has no snapshot yet. -/
theorem C9_no_snapshot_write_still_patches_witness :
    switch_async_set_state ⟨⟨none, false⟩, false⟩ "chargingEnable" true
        (async_set_property (.status 200)) =
      ⟨⟨⟨none, false⟩, false⟩, [.patchSent "chargingEnable" (.pBool true), switch_delayed_refresh], none⟩
    ∧ number_async_set_native_value ⟨⟨none, false⟩, false⟩ "maximumCurrent" "16A" 10
        (async_set_property (.status 200)) =
      ⟨⟨⟨none, false⟩, false⟩,
       [.patchSent "maximumCurrent" (.pNum (number_clamp "16A" 10)), number_delayed_refresh], none⟩ :=
  C9_no_snapshot_write_still_patches ⟨⟨none, false⟩, false⟩ "chargingEnable" "maximumCurrent"
    "16A" true 10 rfl (Or.inl rfl)

/-- Claim C10: a successful single-property refresh of a key leaves
every other key of the snapshot unchanged; and when the fetched dict
does not contain the key, or no snapshot exists, the coordinator state
is entirely unchanged while the fetched dict is still returned. -/
theorem C10_single_refresh_frame (st : CoordState) (k : String) (d : Snapshot) :
    (∀ k2, k2 ≠ k →
      (async_update_single_property st k (.ok d)).1.lookup k2 = st.lookup k2)
    ∧ ((Snapshot.get d k = none ∨ st.data = none) →
        async_update_single_property st k (.ok d) = (st, some d)) := by
  constructor
  · intro k2 hk
    rcases hd : st.data with _ | snap
    · simp [async_update_single_property, hd]
    · rcases hg : Snapshot.get d k with _ | v
      · simp [async_update_single_property, hd, hg]
      · by_cases he : snap.isEmpty
        · simp [async_update_single_property, hd, hg, he]
        · simp [async_update_single_property, hd, hg, he, CoordState.lookup,
            Snapshot.get_set_ne snap k k2 v hk]
  · intro h
    rcases h with h | h
    · rcases hd : st.data with _ | snap
      · simp [async_update_single_property, hd]
      · simp [async_update_single_property, hd, h]
    · simp [async_update_single_property, h]

/-- Witness for C10: refreshing one key leaves the neighbouring key in
place, and a fetched dict missing the key changes nothing. -/
theorem C10_single_refresh_frame_witness :
    (async_update_single_property
        ⟨some [("signal", .bare (.pNum 70)), ("maximumCurrent", .bare (.pNum 8))], true⟩
        "maximumCurrent" (.ok [("maximumCurrent", .bare (.pNum 12))])).1.lookup "signal" =
      CoordState.lookup
        ⟨some [("signal", .bare (.pNum 70)), ("maximumCurrent", .bare (.pNum 8))], true⟩ "signal"
    ∧ async_update_single_property ⟨some [("signal", .bare (.pNum 70))], true⟩
        "maximumCurrent" (.ok []) =
      (⟨some [("signal", .bare (.pNum 70))], true⟩, some []) :=
  ⟨(C10_single_refresh_frame
      ⟨some [("signal", .bare (.pNum 70)), ("maximumCurrent", .bare (.pNum 8))], true⟩
      "maximumCurrent" [("maximumCurrent", .bare (.pNum 12))]).1 "signal" (by decide),
   (C10_single_refresh_frame ⟨some [("signal", .bare (.pNum 70))], true⟩
      "maximumCurrent" []).2 (Or.inl rfl)⟩

/-- Claim C4 counterexample: for a concrete numeric write whose PATCH
returns 200, the delayed 0.5 s task performs the full
async_request_refresh; no single-key refresh through
async_update_single_property appears anywhere in the trace, refuting
the claim that the delayed refresh is a single-property one. -/
theorem C4_delayed_refresh_not_single_key :
    ((number_async_set_native_value ⟨⟨some [("maximumCurrent", .bare (.pNum 5))], true⟩, false⟩
        "maximumCurrent" "16A" 10 (async_set_property (.status 200))).events.any
      WriteEvent.isSingleKeyRefresh) = false
    ∧ (number_async_set_native_value ⟨⟨some [("maximumCurrent", .bare (.pNum 5))], true⟩, false⟩
        "maximumCurrent" "16A" 10 (async_set_property (.status 200))).events =
      [.snapshotMutated "maximumCurrent" (.bare (.pNum 10)), .wroteHaState,
       .patchSent "maximumCurrent" (.pNum 10), .scheduledDelayedRefresh (1/2) .full] := by
  exact ⟨rfl, rfl⟩

/-- Claim C4 as amended: a numeric write whose PATCH returns 200 makes
the optimistic value visible immediately through native_value, and the
last effect is the delayed task that waits 0.5 s and then performs the
full coordinator refresh (the targeted single-property refresh is never
used by the write path). -/
theorem C4_success_schedules_delayed_full_refresh (st : AdapterState) (key cable : String)
    (q : ℚ) (snap : Snapshot)
    (hflag : st.api_call_in_progress = false)
    (hdata : st.coord.data = some snap)
    (hne : snap.isEmpty = false)
    (hlus : st.coord.last_update_success = true)
    (hq : q ≤ (resolve_max_current cable : ℚ)) :
    number_native_value (number_async_set_native_value st key cable q
        (async_set_property (.status 200))).state.coord key = some q
    ∧ (number_async_set_native_value st key cable q (async_set_property (.status 200))).events =
      [.snapshotMutated key (.bare (.pNum q)), .wroteHaState, .patchSent key (.pNum q),
       .scheduledDelayedRefresh (1/2) .full] := by
  have hcl : number_clamp cable q = q := by
    have hnot : ¬(q > (resolve_max_current cable : ℚ)) := not_lt.mpr hq
    simp [number_clamp, hnot]
  have hmut : optimistic_mutation st.coord key (.bare (.pNum q)) =
      ({ st.coord with data := some (Snapshot.set snap key (.bare (.pNum q))) },
       [.snapshotMutated key (.bare (.pNum q)), .wroteHaState]) := by
    simp [optimistic_mutation, hdata, hne]
  rw [number_not_in_flight _ _ _ _ _ hflag, hcl, hmut]
  constructor
  · simp [write_tail, async_set_property, number_native_value, entity_available,
      CoordState.lookup, hlus, Snapshot.get_set_self, Entry.isPyNone, Entry.unwrap, py_float]
  · simp [write_tail, async_set_property, number_delayed_refresh]

/-- Witness for the amended C4 at the 10 A write of the scenario. -/
theorem C4_success_schedules_delayed_full_refresh_witness :
    number_native_value (number_async_set_native_value
        ⟨⟨some [("maximumCurrent", .bare (.pNum 5))], true⟩, false⟩
        "maximumCurrent" "16A" 10 (async_set_property (.status 200))).state.coord
      "maximumCurrent" = some 10
    ∧ (number_async_set_native_value ⟨⟨some [("maximumCurrent", .bare (.pNum 5))], true⟩, false⟩
        "maximumCurrent" "16A" 10 (async_set_property (.status 200))).events =
      [.snapshotMutated "maximumCurrent" (.bare (.pNum 10)), .wroteHaState,
       .patchSent "maximumCurrent" (.pNum 10), .scheduledDelayedRefresh (1/2) .full] :=
  C4_success_schedules_delayed_full_refresh
    ⟨⟨some [("maximumCurrent", .bare (.pNum 5))], true⟩, false⟩
    "maximumCurrent" "16A" 10 [("maximumCurrent", .bare (.pNum 5))]
    rfl rfl rfl rfl (by norm_num [resolve_max_current, CABLE_TYPES_max_current])

/-- Claim C5: a numeric write above the cable maximum is silently
clamped: the snapshot entry stored optimistically and the PATCH payload
both carry the cable maximum, the full success trace runs (mutation,
notification, PATCH, delayed refresh) and nothing is rejected or
raised. -/
theorem C5_clamped_to_cable_max (st : AdapterState) (key cable : String) (q : ℚ)
    (snap : Snapshot)
    (hflag : st.api_call_in_progress = false)
    (hdata : st.coord.data = some snap)
    (hne : snap.isEmpty = false)
    (hq : (resolve_max_current cable : ℚ) < q) :
    (number_async_set_native_value st key cable q (async_set_property (.status 200))).state.coord.data =
      some (Snapshot.set snap key (.bare (.pNum (resolve_max_current cable : ℚ))))
    ∧ (number_async_set_native_value st key cable q (async_set_property (.status 200))).events =
      [.snapshotMutated key (.bare (.pNum (resolve_max_current cable : ℚ))), .wroteHaState,
       .patchSent key (.pNum (resolve_max_current cable : ℚ)), number_delayed_refresh]
    ∧ (number_async_set_native_value st key cable q (async_set_property (.status 200))).uncaught = none := by
  have hcl : number_clamp cable q = (resolve_max_current cable : ℚ) := by
    simp [number_clamp, hq]
  have hmut : optimistic_mutation st.coord key (.bare (.pNum (resolve_max_current cable : ℚ))) =
      ({ st.coord with
          data := some (Snapshot.set snap key (.bare (.pNum (resolve_max_current cable : ℚ)))) },
       [.snapshotMutated key (.bare (.pNum (resolve_max_current cable : ℚ))), .wroteHaState]) := by
    simp [optimistic_mutation, hdata, hne]
  rw [number_not_in_flight _ _ _ _ _ hflag, hcl, hmut]
  refine ⟨rfl, ?_, rfl⟩
  simp [write_tail, async_set_property]

/-- Witness for C5: the 40 A request of the spec scenario against the
16 A cable is stored and sent as 16. -/
theorem C5_clamped_to_cable_max_witness :
    (number_async_set_native_value ⟨⟨some [("maximumCurrent", .bare (.pNum 8))], true⟩, false⟩
        "maximumCurrent" "16A" 40 (async_set_property (.status 200))).state.coord.data =
      some (Snapshot.set [("maximumCurrent", .bare (.pNum 8))] "maximumCurrent"
        (.bare (.pNum (resolve_max_current "16A" : ℚ))))
    ∧ (number_async_set_native_value ⟨⟨some [("maximumCurrent", .bare (.pNum 8))], true⟩, false⟩
        "maximumCurrent" "16A" 40 (async_set_property (.status 200))).events =
      [.snapshotMutated "maximumCurrent" (.bare (.pNum (resolve_max_current "16A" : ℚ))),
       .wroteHaState, .patchSent "maximumCurrent" (.pNum (resolve_max_current "16A" : ℚ)),
       number_delayed_refresh]
    ∧ (number_async_set_native_value ⟨⟨some [("maximumCurrent", .bare (.pNum 8))], true⟩, false⟩
        "maximumCurrent" "16A" 40 (async_set_property (.status 200))).uncaught = none :=
  C5_clamped_to_cable_max ⟨⟨some [("maximumCurrent", .bare (.pNum 8))], true⟩, false⟩
    "maximumCurrent" "16A" 40 [("maximumCurrent", .bare (.pNum 8))]
    rfl rfl rfl (by norm_num [resolve_max_current, CABLE_TYPES_max_current])

/-- Claim C6 counterexample: for the boolean point, a stored bare null
reads as absent (the availability gate rejects the None object), while
the enveloped null reads as the value false — the two storage forms do
not decode alike at the null value. -/
theorem C6_null_envelope_mismatch :
    switch_is_on ⟨some [("chargingEnable", .bare .pNull)], true⟩ "chargingEnable" = none
    ∧ switch_is_on ⟨some [("chargingEnable", .env .pNull)], true⟩ "chargingEnable" = some false :=
  ⟨rfl, rfl⟩

/-- Claim C6 as amended: for every key and every non-null value, each
of the three point reads (boolean, numeric, raw sensor) yields the same
logical value whether the snapshot stores the bare value or its
envelope; at null the bare form is unavailable while the enveloped form
decodes (to false on the boolean point). -/
theorem C6_envelope_transparent_nonnull (key : String) (p : Prim) (lus : Bool)
    (hp : p ≠ .pNull) :
    switch_is_on ⟨some [(key, .bare p)], lus⟩ key = switch_is_on ⟨some [(key, .env p)], lus⟩ key
    ∧ number_native_value ⟨some [(key, .bare p)], lus⟩ key =
        number_native_value ⟨some [(key, .env p)], lus⟩ key
    ∧ sensor_native_value ⟨some [(key, .bare p)], lus⟩ key =
        sensor_native_value ⟨some [(key, .env p)], lus⟩ key := by
  rcases p with b | q | s | _
  · refine ⟨?_, ?_, ?_⟩ <;> cases lus <;>
      simp [switch_is_on, number_native_value, sensor_native_value, entity_available,
        CoordState.lookup, Snapshot.get, Entry.isPyNone, Entry.unwrap]
  · refine ⟨?_, ?_, ?_⟩ <;> cases lus <;>
      simp [switch_is_on, number_native_value, sensor_native_value, entity_available,
        CoordState.lookup, Snapshot.get, Entry.isPyNone, Entry.unwrap]
  · refine ⟨?_, ?_, ?_⟩ <;> cases lus <;>
      simp [switch_is_on, number_native_value, sensor_native_value, entity_available,
        CoordState.lookup, Snapshot.get, Entry.isPyNone, Entry.unwrap]
  · exact absurd rfl hp

/-- Witness for the amended C6 at a true boolean value. -/
theorem C6_envelope_transparent_nonnull_witness :
    switch_is_on ⟨some [("chargingEnable", .bare (.pBool true))], true⟩ "chargingEnable" =
      switch_is_on ⟨some [("chargingEnable", .env (.pBool true))], true⟩ "chargingEnable"
    ∧ number_native_value ⟨some [("chargingEnable", .bare (.pBool true))], true⟩ "chargingEnable" =
        number_native_value ⟨some [("chargingEnable", .env (.pBool true))], true⟩ "chargingEnable"
    ∧ sensor_native_value ⟨some [("chargingEnable", .bare (.pBool true))], true⟩ "chargingEnable" =
        sensor_native_value ⟨some [("chargingEnable", .env (.pBool true))], true⟩ "chargingEnable" :=
  C6_envelope_transparent_nonnull "chargingEnable" (.pBool true) true (by decide)

end IXManager
